import Mathlib

/-!
Shallow embedding of the status-path-driven command gate shared by the
ToggleSrvButton panel (ToggleSrvButton.tsx) and the EStop panel (the panel
component concatenated into settings.ts) of the husarion/foxglove-studio
repository.  The two panels carry a byte-identical evaluation-state reducer
(`getSingleDataItem` and `reducer`), a status-derivation effect, and a
service-call command gate; the reducer is embedded once and stands for both.
Library collaborators that are not part of this repository
(`parseMessagePath` from the message-path package and
`simpleGetMessagePathDataItems` from the host application) are modelled from
the spec, as marked in their doc comments.
-/

/-- Runtime values of message payloads and extracted data, mirroring the
JavaScript values the panels handle: `undefined` (also standing for `null`,
which the loose `!= undefined` checks treat identically), booleans, numbers,
strings, arrays and objects. -/
inductive Value where
  | undefined : Value
  | boolean : Bool → Value
  | num : Int → Value
  | str : String → Value
  | arr : List Value → Value
  | obj : List (String × Value) → Value
deriving Repr

/-- JavaScript loose `data != undefined` test. -/
def Value.isUndefined : Value → Bool
  | .undefined => true
  | _ => false

/-- JavaScript `typeof data === "boolean"` test. -/
def Value.isBool : Value → Bool
  | .boolean _ => true
  | _ => false

/-- JavaScript truthiness of a value (used by the EStop status effect, which
branches on `data ? "go" : "stop"`). -/
def Value.truthy : Value → Bool
  | .undefined => false
  | .boolean b => b
  | .num n => n != 0
  | .str s => !s.isEmpty
  | .arr _ => true
  | .obj _ => true

/-- An inbound record identified by its source topic and carrying a payload
(the MessageEvent of the panels, with the payload made concrete). -/
structure MessageEvent where
  topic : String
  payload : Value
deriving Repr

/-- One operation of a parsed message path.  The message-path library
represents filter values and slice bounds either as literals (numbers,
strings, booleans) or as variable references, which are objects; the reducer
tests `typeof part.value === "object"` respectively
`typeof part.start === "object" || typeof part.end === "object"` to detect
the variable forms, so the variable-bounded filter and slice are their own
constructors here. -/
inductive PathPart where
  | field : String → PathPart
  | index : Nat → PathPart
  | sliceAll : PathPart
  | sliceVar : PathPart
  | filterVar : PathPart
  | filterStr : String → String → PathPart
  | filterNum : String → Int → PathPart
  | filterBool : String → Bool → PathPart
deriving Repr, DecidableEq

/-- Detects the path operations the reducer rejects: a filter whose value is
an object (a variable reference) or a slice whose start or end is an object. -/
def PathPart.usesVariable : PathPart → Bool
  | .filterVar => true
  | .sliceVar => true
  | _ => false

/-- A parsed data path: a topic name plus a sequence of operations (the
MessagePath of the message-path library, restricted to the fields the panels
read: `topicName` and `messagePath`). -/
structure MessagePath where
  topicName : String
  messagePath : List PathPart
deriving Repr, DecidableEq

/-- Looks a field up in an object payload. -/
def lookupField (fields : List (String × Value)) (name : String) : Option Value :=
  (fields.find? (fun f => f.1 == name)).map (fun f => f.2)

/-- Modelled from the spec: one step of value extraction, applying a single
path operation to a single value.  The spec describes extraction as walking
the field-access/index/filter chain of a path over the structured payload;
a field access or index yields at most one value, a full slice yields every
element of an array, and a literal filter keeps the value exactly when the
named field matches the literal.  Variable-bounded filters and slices are
rejected before extraction ever runs, so they extract nothing here. -/
def stepPart (p : PathPart) (v : Value) : List Value :=
  match p, v with
  | .field n, .obj fs =>
    match lookupField fs n with
    | some w => [w]
    | none => []
  | .index i, .arr xs =>
    match xs.get? i with
    | some w => [w]
    | none => []
  | .sliceAll, .arr xs => xs
  | .filterStr key lit, .obj fs =>
    match lookupField fs key with
    | some (.str s) => if s == lit then [.obj fs] else []
    | _ => []
  | .filterNum key lit, .obj fs =>
    match lookupField fs key with
    | some (.num n) => if n == lit then [.obj fs] else []
    | _ => []
  | .filterBool key lit, .obj fs =>
    match lookupField fs key with
    | some (.boolean b) => if b == lit then [.obj fs] else []
    | _ => []
  | _, _ => []

/-- Modelled from the spec: `simpleGetMessagePathDataItems` from the host
application is not part of this repository.  The spec says the evaluator
extracts the value or values at the field/index/filter chain of the path;
this folds the path operations over the message payload, threading the list
of current values. -/
def simpleGetMessagePathDataItems (message : MessageEvent) (path : MessagePath) : List Value :=
  path.messagePath.foldl (fun acc p => acc.flatMap (stepPart p)) [message.payload]

/-- Embeds `getSingleDataItem` of both panels: at most one result returns
`results[0]` (which is `undefined` for an empty result list); two or more
results throw `Error("Message path produced multiple results")`.  The throw
is modelled as `Except.error` carrying the error message. -/
def getSingleDataItem (results : List Value) : Except String Value :=
  if results.length ≤ 1 then .ok (results.headD Value.undefined)
  else .error "Message path produced multiple results"

/-- Modelled from the spec: `parseMessagePath` from the message-path package
is not part of this repository.  The spec describes a data path as a topic
name plus a sequence of operations, and says parsing "may fail to parse
(malformed syntax)".  The modelled grammar splits the string on dots; the
first segment is the topic name, each later segment is a field access, with
the markers "[:]" for a full slice, "[$]" for a variable-bounded slice and
"[?$]" for a variable-valued filter; an empty string or an empty segment
fails to parse (returns none, as the library returns undefined). -/
def parsePart (s : String) : PathPart :=
  if s == "[:]" then .sliceAll
  else if s == "[$]" then .sliceVar
  else if s == "[?$]" then .filterVar
  else .field s

/-- Splits a character list on dots, accumulating the current segment. -/
def splitDotsAux : List Char → String → List String
  | [], acc => [acc]
  | c :: rest, acc =>
    if c = '.' then acc :: splitDotsAux rest ""
    else splitDotsAux rest (acc.push c)

def parseMessagePath (s : String) : Option MessagePath :=
  match splitDotsAux s.data "" with
  | [] => none
  | topic :: rest =>
    if topic.isEmpty || rest.any (fun seg => seg.isEmpty) then none
    else some ⟨topic, rest.map parsePart⟩

/-- Embeds the State type of both panels.  `latestMatchingQueriedData` has
type `unknown` in the source and is `undefined` until first set, so it is a
`Value` with `Value.undefined` standing for `undefined`; the `error` field keeps
the message of the stored Error object. -/
structure EvalState where
  path : String
  parsedPath : Option MessagePath
  latestMessage : Option MessageEvent
  latestMatchingQueriedData : Value
  error : Option String
  pathParseError : Option String
deriving Repr

/-- Embeds the Action type of both panels. -/
inductive EvalAction where
  | frame : List MessageEvent → EvalAction
  | path : String → EvalAction
  | seek : EvalAction

/-- Embeds the for-loop of the reducer frame case: messages whose topic
differs from the path topic are skipped; for the rest,
`getSingleDataItem(simpleGetMessagePathDataItems(message, parsedPath))`
either throws (propagated as `Except.error`, to be caught by the outer
catch of the reducer) or yields data, and defined data overwrites the
accumulated `latestMatchingQueriedData` and `latestMessage`. -/
def processFrameMessages (pp : MessagePath) :
    List MessageEvent → Value → Option MessageEvent →
    Except String (Value × Option MessageEvent)
  | [], data, msg => .ok (data, msg)
  | m :: rest, data, msg =>
    if m.topic == pp.topicName then
      match getSingleDataItem (simpleGetMessagePathDataItems m pp) with
      | .error e => .error e
      | .ok d =>
        if d.isUndefined then processFrameMessages pp rest data msg
        else processFrameMessages pp rest d (some m)
    else processFrameMessages pp rest data msg

/-- Embeds the reducer shared by the two panels (the whole switch runs in a
try block whose catch returns
`{ ...state, latestMatchingQueriedData: undefined, error }`; only the frame
loop can throw into it, the path case catching its own extraction error
inside).  In the frame case, `_.last` of the batch is `List.getLast?`; in
the path case the variable check is
`newPath?.messagePath.some((part) => ...) === true` and extraction from the
retained message runs only when the new path parsed, no variable error was
set and a message is retained. -/
def reducer (state : EvalState) (action : EvalAction) : EvalState :=
  match action with
  | .frame messages =>
    if state.pathParseError.isSome then
      { state with latestMessage := messages.getLast?, error := none }
    else
      match state.parsedPath with
      | none => { state with error := none }
      | some pp =>
        match processFrameMessages pp messages
            state.latestMatchingQueriedData state.latestMessage with
        | .ok (data, msg) =>
          { state with latestMessage := msg, latestMatchingQueriedData := data,
                       error := none }
        | .error e =>
          { state with latestMatchingQueriedData := Value.undefined, error := some e }
  | .path p =>
    let newPath := parseMessagePath p
    let pathParseError : Option String :=
      if (newPath.map (fun mp => mp.messagePath.any PathPart.usesVariable)).getD false then
        some "Message paths using variables are not currently supported"
      else none
    let result : Except String Value :=
      match newPath, pathParseError, state.latestMessage with
      | some np, none, some msg => getSingleDataItem (simpleGetMessagePathDataItems msg np)
      | _, _, _ => .ok .undefined
    match result with
    | .ok v =>
      { state with path := p, parsedPath := newPath,
                   latestMatchingQueriedData := v, error := none,
                   pathParseError := pathParseError }
    | .error e =>
      { state with path := p, parsedPath := newPath,
                   latestMatchingQueriedData := .undefined, error := some e,
                   pathParseError := pathParseError }
  | .seek =>
    { state with latestMessage := none, latestMatchingQueriedData := .undefined,
                 error := none }

/-- Status pair of the ToggleSrvButton panel (ButtonState without the
`undefined` case, which is carried by `Option`). -/
inductive ButtonState where
  | activated : ButtonState
  | deactivated : ButtonState
deriving Repr, DecidableEq

/-- Status pair of the EStop panel (EStopState without the `undefined` case,
which is carried by `Option`). -/
inductive EStopState where
  | go : EStopState
  | stop : EStopState
deriving Repr, DecidableEq

/-- Embeds the buttonAction effect of ToggleSrvButtonContent: when
`typeof data === "boolean"`, `isDeactivated = data === config.reverseLogic`
and the action becomes deactivated or activated accordingly; any other value
leaves the previous action untouched (the effect calls no setter). -/
def updateButtonAction (data : Value) (reverseLogic : Bool)
    (prev : Option ButtonState) : Option ButtonState :=
  match data with
  | .boolean b =>
    if b == reverseLogic then some .deactivated else some .activated
  | _ => prev

/-- Embeds the eStopAction effect of EStopContent: when
`state.latestMatchingQueriedData != undefined`, the value is used as a
boolean by JavaScript truthiness (`data ? "go" : "stop"`, the `as boolean`
cast being erased at runtime); an undefined value leaves the previous action
untouched. -/
def updateEStopAction (data : Value) (prev : Option EStopState) : Option EStopState :=
  if data.isUndefined then prev
  else if data.truthy then some .go else some .stop

/-- Configuration fields of the ToggleSrvButton panel read by the gate and
the status effect (text and color fields are presentation only and elided). -/
structure ToggleConfig where
  serviceName : String
  statusTopicName : String
  reverseLogic : Bool
deriving Repr, DecidableEq

/-- Configuration fields of the EStop panel read by the gate. -/
structure EStopConfig where
  goServiceName : String
  stopServiceName : String
  statusTopicName : String
deriving Repr, DecidableEq

/-- Phases of the request bookkeeping state of both panels. -/
inductive SrvStatus where
  | requesting : SrvStatus
  | error : SrvStatus
  | success : SrvStatus
deriving Repr, DecidableEq

/-- Embeds SrvResponse of both panels. -/
structure SrvResponse where
  success : Bool
  message : String
deriving Repr, DecidableEq

/-- Embeds SrvState of both panels. -/
structure SrvState where
  status : SrvStatus
  response : Option SrvResponse
deriving Repr, DecidableEq

/-- Embeds canToggleSrvButton: callService capability present, serviceName
and statusTopicName truthy (nonempty), buttonAction defined, and the request
state not currently requesting (`srvState?.status !== "requesting"`). -/
def canToggleSrvButton (hasCallService : Bool) (config : ToggleConfig)
    (buttonAction : Option ButtonState) (srvState : Option SrvState) : Bool :=
  hasCallService && !config.serviceName.isEmpty && !config.statusTopicName.isEmpty &&
    buttonAction.isSome && !(srvState.map (fun s => s.status) == some .requesting)

/-- Embeds canEStop: callService capability present, goServiceName and
stopServiceName truthy (nonempty), eStopAction defined, and the request
state not currently requesting. -/
def canEStop (hasCallService : Bool) (config : EStopConfig)
    (eStopAction : Option EStopState) (srvState : Option SrvState) : Bool :=
  hasCallService && !config.goServiceName.isEmpty && !config.stopServiceName.isEmpty &&
    eStopAction.isSome && !(srvState.map (fun s => s.status) == some .requesting)

/-- Outcome of the awaited `context.callService` promise: it either resolves
with a response or rejects with an error message. -/
inductive CallOutcome where
  | resolves : SrvResponse → CallOutcome
  | rejects : String → CallOutcome

/-- Observable result of running a click handler to quiescence: the outbound
service calls it issued (service name and request payload) and the final
value of the srvState React state. -/
structure ClickResult where
  calls : List (String × Value)
  srvState : Option SrvState
deriving Repr

/-- Request payload of the toggle handler:
`{ data: buttonAction === "activated" ? false : true }`. -/
def toggleRequestPayload (buttonAction : ButtonState) : Value :=
  .obj [("data", .boolean (buttonAction != .activated))]

/-- Embeds toggleSrvButtonClicked.  Without the callService capability the
handler sets `{status: "error", response: undefined}` and returns.  With an
undefined buttonAction it does nothing.  Otherwise it sets
`{status: "requesting"}`, awaits the call and, on resolution, sets
`{status: "success", response}`.  The await has no try/catch: when the
promise rejects the handler aborts before any further setter runs, so the
final srvState is the requesting record set just before the call. -/
def toggleSrvButtonClicked (hasCallService : Bool) (config : ToggleConfig)
    (buttonAction : Option ButtonState) (outcome : CallOutcome)
    (prev : Option SrvState) : ClickResult :=
  if !hasCallService then ⟨[], some ⟨.error, none⟩⟩
  else
    match buttonAction with
    | none => ⟨[], prev⟩
    | some a =>
      match outcome with
      | .resolves r =>
        ⟨[(config.serviceName, toggleRequestPayload a)], some ⟨.success, some r⟩⟩
      | .rejects _ =>
        ⟨[(config.serviceName, toggleRequestPayload a)], some ⟨.requesting, none⟩⟩

/-- Embeds eStopClicked.  Without the callService capability the handler
sets `{status: "error"}` and returns; the target service is
`eStopAction === "go" ? config.goServiceName : config.stopServiceName`; an
empty target also sets `{status: "error"}` and returns.  Otherwise it sets
`{status: "requesting"}`, awaits `callService(serviceName, {})` and, on
resolution, sets `{status: "success", response}`; as in the toggle handler
the await has no try/catch, so a rejection leaves the requesting record as
the final srvState. -/
def eStopClicked (hasCallService : Bool) (config : EStopConfig)
    (eStopAction : Option EStopState) (outcome : CallOutcome)
    (_prev : Option SrvState) : ClickResult :=
  if !hasCallService then ⟨[], some ⟨.error, none⟩⟩
  else
    let serviceName :=
      if eStopAction == some .go then config.goServiceName else config.stopServiceName
    if serviceName.isEmpty then ⟨[], some ⟨.error, none⟩⟩
    else
      match outcome with
      | .resolves r => ⟨[(serviceName, .obj [])], some ⟨.success, some r⟩⟩
      | .rejects _ => ⟨[(serviceName, .obj [])], some ⟨.requesting, none⟩⟩

/-- Embeds the only invocation path of the toggle handler: the Button is
rendered with `disabled={!canToggleSrvButton}` and a disabled button does
not fire its onClick handler, so a click runs toggleSrvButtonClicked exactly
when the gate predicate holds and otherwise changes nothing. -/
def toggleButtonClick (hasCallService : Bool) (config : ToggleConfig)
    (buttonAction : Option ButtonState) (outcome : CallOutcome)
    (prev : Option SrvState) : ClickResult :=
  if canToggleSrvButton hasCallService config buttonAction prev then
    toggleSrvButtonClicked hasCallService config buttonAction outcome prev
  else ⟨[], prev⟩

/-- Embeds the only invocation path of the e-stop handler: the Button is
rendered with `disabled={!canEStop}`. -/
def eStopButtonClick (hasCallService : Bool) (config : EStopConfig)
    (eStopAction : Option EStopState) (outcome : CallOutcome)
    (prev : Option SrvState) : ClickResult :=
  if canEStop hasCallService config eStopAction prev then
    eStopClicked hasCallService config eStopAction outcome prev
  else ⟨[], prev⟩

/-- A raised failure notification: the fixed "Request Failed" headline and
the details taken from the response message. -/
structure PanelNotification where
  message : String
  details : String
deriving Repr, DecidableEq

/-- Embeds the NotificationModal guard of both panels: the modal is rendered
exactly when `srvState?.response?.success === false`, with message
"Request Failed" and details `srvState.response.message`. -/
def notificationFor (srvState : Option SrvState) : Option PanelNotification :=
  match srvState with
  | some ⟨_, some r⟩ =>
    if r.success then none else some ⟨"Request Failed", r.message⟩
  | _ => none

/-- Embeds handleRequestCloseNotification of both panels: dismissing the
notification sets srvState to undefined. -/
def handleRequestCloseNotification : Option SrvState := none

/-- A batch message matches when its topic equals the path topic and its
extraction yields exactly one defined result (the condition under which the
frame loop overwrites the accumulated value and message). -/
def matchesOnce (pp : MessagePath) (m : MessageEvent) : Bool :=
  m.topic == pp.topicName &&
    match getSingleDataItem (simpleGetMessagePathDataItems m pp) with
    | .ok d => !d.isUndefined
    | .error _ => false

/-- The value a message contributes under a path. -/
def extractedValue (pp : MessagePath) (m : MessageEvent) : Value :=
  match getSingleDataItem (simpleGetMessagePathDataItems m pp) with
  | .ok d => d
  | .error _ => .undefined

/-- No topic-matching message of the batch yields more than one extraction
result (so the frame loop never throws). -/
def NoMultiResult (pp : MessagePath) (ms : List MessageEvent) : Prop :=
  ∀ m ∈ ms, m.topic = pp.topicName → (simpleGetMessagePathDataItems m pp).length ≤ 1

theorem findConcat {α : Type} (l : List α) (a : α) (p : α → Bool) :
    (l ++ [a]).find? p =
      match l.find? p with
      | some b => some b
      | none => if p a then some a else none := by
  induction l with
  | nil => cases hpa : p a <;> simp [List.find?, hpa]
  | cons x xs ih =>
    cases hx : p x <;> simp [List.find?_cons, hx, ih]

/-- The only error `getSingleDataItem` raises is the multiple-results one. -/
theorem getSingleDataItem_error (l : List Value) (e : String)
    (h : getSingleDataItem l = .error e) :
    e = "Message path produced multiple results" := by
  unfold getSingleDataItem at h
  split at h
  · exact Except.noConfusion h
  · injection h with h2
    exact h2.symm

/-- When no topic-matching message yields multiple results, the frame loop
returns the contribution of the last matching message, or the starting
accumulator when no message matches. -/
theorem processFrameMessages_eq_find (pp : MessagePath) (ms : List MessageEvent)
    (d0 : Value) (m0 : Option MessageEvent) (h : NoMultiResult pp ms) :
    processFrameMessages pp ms d0 m0 =
      .ok (match ms.reverse.find? (matchesOnce pp) with
           | some m => (extractedValue pp m, some m)
           | none => (d0, m0)) := by
  induction ms generalizing d0 m0 with
  | nil => rfl
  | cons m rest ih =>
    have hrest : NoMultiResult pp rest := fun x hx => h x (List.mem_cons_of_mem _ hx)
    rw [List.reverse_cons, findConcat]
    by_cases ht : m.topic = pp.topicName
    · have hlen : (simpleGetMessagePathDataItems m pp).length ≤ 1 :=
        h m (List.mem_cons_self _ _) ht
      obtain ⟨d, hok⟩ : ∃ d, getSingleDataItem (simpleGetMessagePathDataItems m pp) = .ok d :=
        ⟨(simpleGetMessagePathDataItems m pp).headD Value.undefined,
          by simp [getSingleDataItem, hlen]⟩
      have htb : (m.topic == pp.topicName) = true := by simp [ht]
      cases hu : d.isUndefined
      · have hmo : matchesOnce pp m = true := by
          simp [matchesOnce, htb, hok, hu]
        have hval : extractedValue pp m = d := by
          simp [extractedValue, hok]
        rw [show processFrameMessages pp (m :: rest) d0 m0 =
            processFrameMessages pp rest d (some m) by
          simp [processFrameMessages, htb, hok, hu]]
        rw [ih _ _ hrest]
        cases rest.reverse.find? (matchesOnce pp) <;> simp [hmo, hval]
      · have hmo : matchesOnce pp m = false := by
          simp [matchesOnce, htb, hok, hu]
        rw [show processFrameMessages pp (m :: rest) d0 m0 =
            processFrameMessages pp rest d0 m0 by
          simp [processFrameMessages, htb, hok, hu]]
        rw [ih d0 m0 hrest]
        cases rest.reverse.find? (matchesOnce pp) <;> simp [hmo]
    · have htb : (m.topic == pp.topicName) = false := by
        simp [ht]
      have hmo : matchesOnce pp m = false := by
        simp [matchesOnce, htb]
      rw [show processFrameMessages pp (m :: rest) d0 m0 =
          processFrameMessages pp rest d0 m0 by
        simp [processFrameMessages, htb]]
      rw [ih d0 m0 hrest]
      cases rest.reverse.find? (matchesOnce pp) <;> simp [hmo]

/-- A topic-matching message with two or more extraction results makes the
frame loop throw the multiple-results error, wherever it sits in the batch. -/
theorem processFrameMessages_multi (pp : MessagePath) (ms : List MessageEvent)
    (d0 : Value) (m0 : Option MessageEvent) (m : MessageEvent)
    (hm : m ∈ ms) (ht : m.topic = pp.topicName)
    (hlen : 2 ≤ (simpleGetMessagePathDataItems m pp).length) :
    processFrameMessages pp ms d0 m0 =
      .error "Message path produced multiple results" := by
  induction ms generalizing d0 m0 with
  | nil => cases hm
  | cons x rest ih =>
    rcases List.mem_cons.mp hm with rfl | hm2
    · have htb : (m.topic == pp.topicName) = true := by simp [ht]
      have herr : getSingleDataItem (simpleGetMessagePathDataItems m pp) =
          .error "Message path produced multiple results" := by
        unfold getSingleDataItem
        rw [if_neg (by omega)]
      simp [processFrameMessages, htb, herr]
    · by_cases hx : x.topic = pp.topicName
      · have hxb : (x.topic == pp.topicName) = true := by simp [hx]
        cases hE : getSingleDataItem (simpleGetMessagePathDataItems x pp) with
        | error e =>
          have he := getSingleDataItem_error _ _ hE
          simp [processFrameMessages, hxb, hE, he]
        | ok d =>
          cases hu : d.isUndefined <;>
            simp [processFrameMessages, hxb, hE, hu, ih d0 m0 hm2, ih d (some x) hm2]
      · have hxb : (x.topic == pp.topicName) = false := by simp [hx]
        simp [processFrameMessages, hxb, ih d0 m0 hm2]

/-- C1 (amended): with a parsed path, no parse error and no topic-matching
message of the batch yielding multiple extraction results, one frame action
sets `latestMatchingQueriedData` to the value extracted from the last
message of the batch (in arrival order) whose topic equals the path topic
and whose extraction yields exactly one defined result, and sets
`latestMessage` to that message; when no message of the batch yields a
defined result, `latestMatchingQueriedData` and `latestMessage` are
unchanged from the pre-batch state (only the evaluation error is cleared). -/
theorem frame_updates_to_last_match (s : EvalState) (pp : MessagePath)
    (ms : List MessageEvent)
    (hp : s.parsedPath = some pp) (he : s.pathParseError = none)
    (hnm : NoMultiResult pp ms) :
    (∀ m, ms.reverse.find? (matchesOnce pp) = some m →
        reducer s (.frame ms) =
          { s with latestMessage := some m,
                   latestMatchingQueriedData := extractedValue pp m,
                   error := none }) ∧
    (ms.reverse.find? (matchesOnce pp) = none →
        reducer s (.frame ms) = { s with error := none }) := by
  have key := processFrameMessages_eq_find pp ms
    s.latestMatchingQueriedData s.latestMessage hnm
  constructor
  · intro m hm
    rw [hm] at key
    simp [reducer, hp, he, key]
  · intro hm
    rw [hm] at key
    simp [reducer, hp, he, key]

/-- Example path used by witnesses: the boolean field `data` on topic
`/status`. -/
def exPath : MessagePath := ⟨"/status", [.field "data"]⟩

def exMsgTrue : MessageEvent := ⟨"/status", .obj [("data", .boolean true)]⟩

def exMsgFalse : MessageEvent := ⟨"/status", .obj [("data", .boolean false)]⟩

def exMsgOther : MessageEvent := ⟨"/other", .boolean false⟩

def exMsgEmpty : MessageEvent := ⟨"/status", .obj []⟩

theorem frame_updates_to_last_match_witness :
    reducer ⟨"/status.data", some exPath, none, .undefined, none, none⟩
        (.frame [exMsgOther, exMsgFalse, exMsgTrue, exMsgEmpty]) =
      ⟨"/status.data", some exPath, some exMsgTrue, .boolean true, none, none⟩ := by
  have h := (frame_updates_to_last_match
    ⟨"/status.data", some exPath, none, .undefined, none, none⟩ exPath
    [exMsgOther, exMsgFalse, exMsgTrue, exMsgEmpty] rfl rfl
    (by
      intro m hm ht
      simp only [List.mem_cons, List.not_mem_nil, or_false] at hm
      rcases hm with rfl | rfl | rfl | rfl <;> decide)).1 exMsgTrue (by rfl)
  exact h

/-- Counterexample path with a full slice over the array field `xs`. -/
def cexPath : MessagePath := ⟨"/status", [.field "xs", .sliceAll]⟩

/-- A message whose extraction under `cexPath` yields exactly one defined
result, the boolean true. -/
def cexGood : MessageEvent := ⟨"/status", .obj [("xs", .arr [.boolean true])]⟩

/-- A message whose extraction under `cexPath` yields two results. -/
def cexMulti : MessageEvent := ⟨"/status", .obj [("xs", .arr [.num 1, .num 2])]⟩

def cexState : EvalState := ⟨"/status.xs.[:]", some cexPath, none, .undefined, none, none⟩

/-- C1 counterexample: in the batch `[cexGood, cexMulti]` the last message
whose topic matches and whose extraction yields exactly one defined result
is `cexGood` with value true, so the claim as stated predicts
`latestMatchingQueriedData = boolean true`; the reducer instead hits the
multiple-results throw on `cexMulti` and leaves
`latestMatchingQueriedData` undefined with the error recorded. -/
theorem frame_last_match_counterexample :
    [cexGood, cexMulti].reverse.find? (matchesOnce cexPath) = some cexGood ∧
    extractedValue cexPath cexGood = .boolean true ∧
    (reducer cexState (.frame [cexGood, cexMulti])).latestMatchingQueriedData =
      Value.undefined ∧
    (reducer cexState (.frame [cexGood, cexMulti])).error =
      some "Message path produced multiple results" ∧
    Value.undefined ≠ Value.boolean true := by
  refine ⟨rfl, rfl, rfl, rfl, ?_⟩
  intro h
  exact Value.noConfusion h

/-- C5: a frame whose batch contains a topic-matching message with two or
more extraction results makes the reducer record the multiple-results error
in the error field and set `latestMatchingQueriedData` to undefined; the
throw is caught, the reducer returns a state instead of crashing. -/
theorem multi_result_sets_error (s : EvalState) (pp : MessagePath)
    (ms : List MessageEvent) (m : MessageEvent)
    (hp : s.parsedPath = some pp) (he : s.pathParseError = none)
    (hm : m ∈ ms) (ht : m.topic = pp.topicName)
    (hlen : 2 ≤ (simpleGetMessagePathDataItems m pp).length) :
    reducer s (.frame ms) =
      { s with latestMatchingQueriedData := Value.undefined,
               error := some "Message path produced multiple results" } := by
  have key := processFrameMessages_multi pp ms
    s.latestMatchingQueriedData s.latestMessage m hm ht hlen
  simp [reducer, hp, he, key]

theorem multi_result_sets_error_witness :
    reducer cexState (.frame [cexMulti]) =
      ⟨"/status.xs.[:]", some cexPath, none, Value.undefined,
        some "Message path produced multiple results", none⟩ := by
  have h := multi_result_sets_error cexState cexPath [cexMulti] cexMulti
    rfl rfl (List.mem_cons_self _ _) rfl (by decide)
  exact h

/-- C6: a seek action clears `latestMessage`, `latestMatchingQueriedData`
and the evaluation error regardless of the prior state, while leaving
`path`, `parsedPath` and `pathParseError` unchanged, and a frame processed
after the seek is evaluated starting from this cleared state. -/
theorem seek_clears_evaluation (s : EvalState) (ms : List MessageEvent) :
    reducer s .seek =
      { s with latestMessage := none, latestMatchingQueriedData := .undefined,
               error := none } ∧
    reducer (reducer s .seek) (.frame ms) =
      reducer { s with latestMessage := none, latestMatchingQueriedData := .undefined,
                       error := none } (.frame ms) :=
  ⟨rfl, rfl⟩

/-- C7: a path action with a new path string that parses without error (no
parse failure, no variable-using parts) preserves the retained
`latestMessage` and synchronously recomputes `latestMatchingQueriedData` by
re-running extraction of the new parsed path against that retained message,
recording the extraction error instead when the extraction throws. -/
theorem path_recompute_from_retained (s : EvalState) (p : String)
    (pp : MessagePath) (m : MessageEvent)
    (hparse : parseMessagePath p = some pp)
    (hvar : pp.messagePath.any PathPart.usesVariable = false)
    (hmsg : s.latestMessage = some m) :
    reducer s (.path p) =
      match getSingleDataItem (simpleGetMessagePathDataItems m pp) with
      | .ok v =>
        { s with path := p, parsedPath := some pp,
                 latestMatchingQueriedData := v, error := none,
                 pathParseError := none }
      | .error e =>
        { s with path := p, parsedPath := some pp,
                 latestMatchingQueriedData := .undefined, error := some e,
                 pathParseError := none } := by
  cases hE : getSingleDataItem (simpleGetMessagePathDataItems m pp) <;>
    simp [reducer, hparse, hvar, hmsg, hE]

theorem path_recompute_from_retained_witness :
    reducer ⟨"/old", none, some exMsgTrue, .undefined, none, none⟩
        (.path "/status.data") =
      ⟨"/status.data", some exPath, some exMsgTrue, .boolean true, none, none⟩ := by
  have h := path_recompute_from_retained
    ⟨"/old", none, some exMsgTrue, .undefined, none, none⟩
    "/status.data" exPath exMsgTrue (by rfl) rfl rfl
  exact h

/-- C10: a frame action processed while `pathParseError` is set overwrites
`latestMessage` with the last message of the batch regardless of its topic
(undefined for an empty batch, as `_.last` of an empty array), clears the
evaluation error, and leaves `latestMatchingQueriedData` unchanged. -/
theorem frame_with_parse_error (s : EvalState) (ms : List MessageEvent)
    (e : String) (h : s.pathParseError = some e) :
    reducer s (.frame ms) =
      { s with latestMessage := ms.getLast?, error := none } := by
  simp [reducer, h]

theorem frame_with_parse_error_witness :
    reducer ⟨"/status.[?$]", some ⟨"/status", [.filterVar]⟩, some exMsgTrue,
        .boolean true, some "stale evaluation error",
        some "Message paths using variables are not currently supported"⟩
      (.frame [exMsgOther]) =
    ⟨"/status.[?$]", some ⟨"/status", [.filterVar]⟩, some exMsgOther,
        .boolean true, none,
        some "Message paths using variables are not currently supported"⟩ :=
  frame_with_parse_error _ _ _ rfl

/-- C2 counterexample: the claim says a non-boolean
`latestMatchingQueriedData` always yields an undefined derived status; the
EStop effect instead derives a status from any defined value by JavaScript
truthiness, so the number 1 sets the status to go. -/
theorem nonBoolean_status_counterexample :
    ¬ (∀ (data : Value) (prev : Option EStopState),
        data.isBool = false → updateEStopAction data prev = none) := by
  intro h
  have h1 := h (Value.num 1) none rfl
  exact absurd h1 (by decide)

/-- C2 (amended): a non-boolean value leaves the toggle status unchanged
(so it stays undefined until a boolean value is observed); the EStop effect
sets the status from any defined value by JavaScript truthiness and leaves
it unchanged only for an undefined value; an undefined status makes the
command-gate enable predicate of either panel false (fail-closed). -/
theorem nonBoolean_status_behavior :
    (∀ (data : Value) (r : Bool) (prev : Option ButtonState),
        data.isBool = false → updateButtonAction data r prev = prev) ∧
    (∀ (data : Value) (prev : Option EStopState),
        data.isUndefined = false →
          updateEStopAction data prev =
            some (if data.truthy then .go else .stop)) ∧
    (∀ (data : Value) (prev : Option EStopState),
        data.isUndefined = true → updateEStopAction data prev = prev) ∧
    (∀ (h : Bool) (cfg : ToggleConfig) (srv : Option SrvState),
        canToggleSrvButton h cfg none srv = false) ∧
    (∀ (h : Bool) (cfg : EStopConfig) (srv : Option SrvState),
        canEStop h cfg none srv = false) := by
  refine ⟨?_, ?_, ?_, ?_, ?_⟩
  · intro data r prev hd
    cases data <;> simp_all [updateButtonAction, Value.isBool]
  · intro data prev hd
    cases htr : data.truthy <;> simp [updateEStopAction, hd, htr]
  · intro data prev hd
    simp [updateEStopAction, hd]
  · intro h cfg srv
    simp [canToggleSrvButton]
  · intro h cfg srv
    simp [canEStop]

theorem nonBoolean_status_behavior_witness :
    updateButtonAction (Value.str "on") false (some .activated) = some .activated ∧
    updateEStopAction (Value.num 2) none = some EStopState.go ∧
    updateEStopAction Value.undefined (some .stop) = some .stop ∧
    canToggleSrvButton true ⟨"/set_bool", "/status.data", false⟩ none none = false ∧
    canEStop true ⟨"/trigger", "/reset", "/status.data"⟩ none none = false := by
  refine ⟨nonBoolean_status_behavior.1 (Value.str "on") false (some .activated) rfl,
    ?_,
    nonBoolean_status_behavior.2.2.1 Value.undefined (some .stop) rfl,
    nonBoolean_status_behavior.2.2.2.1 true ⟨"/set_bool", "/status.data", false⟩ none,
    nonBoolean_status_behavior.2.2.2.2 true ⟨"/trigger", "/reset", "/status.data"⟩ none⟩
  have h := nonBoolean_status_behavior.2.1 (Value.num 2) none rfl
  simpa using h

/-- C9 counterexample: the claim says the EStop derived status for a
boolean value v and polarity flag r equals (r ? not v : v) mapped to go or
stop; the EStop effect has no polarity input at all, so with v = true and
r = true the claim predicts stop while the code derives go. -/
theorem polarity_mapping_counterexample :
    ¬ (∀ (v r : Bool) (prev : Option EStopState),
        updateEStopAction (Value.boolean v) prev =
          some (if (if r then !v else v) then EStopState.go else EStopState.stop)) := by
  intro h
  have h1 := h true true none
  exact absurd h1 (by decide)

/-- C9 (amended): for the toggle panel the derived status equals
(r ? not v : v) mapped onto activated/deactivated, and toggling the
reverse-polarity flag always flips the status to the opposite named state;
the EStop panel has no polarity flag and maps the boolean value directly
onto go/stop. -/
theorem polarity_mapping :
    (∀ (v r : Bool) (prev : Option ButtonState),
        updateButtonAction (Value.boolean v) r prev =
          some (if (if r then !v else v) then ButtonState.activated
                else ButtonState.deactivated)) ∧
    (∀ (v r : Bool) (prev : Option ButtonState),
        updateButtonAction (Value.boolean v) (!r) prev =
          some (if (if r then !v else v) then ButtonState.deactivated
                else ButtonState.activated)) ∧
    (∀ (v : Bool) (prev : Option EStopState),
        updateEStopAction (Value.boolean v) prev =
          some (if v then EStopState.go else EStopState.stop)) := by
  refine ⟨?_, ?_, ?_⟩
  · intro v r prev
    cases v <;> cases r <;> rfl
  · intro v r prev
    cases v <;> cases r <;> rfl
  · intro v prev
    cases v <;> rfl

/-- C3: evaluating both click handlers at the failing input.  The claim
says a rejected call moves the request state from requesting to the failed
phase with the rejection message recorded; the handlers have no try/catch
around the awaited call, so a rejection leaves the request state at
requesting with no response recorded, which the panel stories for this
scenario (expecting the rejection text shown verbatim) contradict. -/
theorem rejection_leaves_requesting :
    (toggleSrvButtonClicked true ⟨"/non_existing_service", "/status.data", false⟩
        (some .deactivated)
        (.rejects "Service \"/non_existing_service\" does not exist")
        none).srvState = some ⟨SrvStatus.requesting, none⟩ ∧
    (eStopClicked true ⟨"/non_existing_service", "/reset", "/status.data"⟩
        (some .go)
        (.rejects "Service \"/non_existing_service\" does not exist")
        none).srvState = some ⟨SrvStatus.requesting, none⟩ ∧
    SrvStatus.requesting ≠ SrvStatus.error :=
  ⟨rfl, rfl, by decide⟩

/-- C4: whenever the current request state is requesting, the enable
predicate of either panel is false, and a click is a no-op: no outbound
call is issued and the request state is unchanged. -/
theorem requesting_blocks_invocation
    (hasCallService : Bool) (cfg : ToggleConfig) (ecfg : EStopConfig)
    (ba : Option ButtonState) (ea : Option EStopState)
    (outcome : CallOutcome) (prev : Option SrvState)
    (h : prev.map (fun s => s.status) = some .requesting) :
    canToggleSrvButton hasCallService cfg ba prev = false ∧
    toggleButtonClick hasCallService cfg ba outcome prev = ⟨[], prev⟩ ∧
    canEStop hasCallService ecfg ea prev = false ∧
    eStopButtonClick hasCallService ecfg ea outcome prev = ⟨[], prev⟩ := by
  have h1 : canToggleSrvButton hasCallService cfg ba prev = false := by
    simp [canToggleSrvButton, h]
  have h2 : canEStop hasCallService ecfg ea prev = false := by
    simp [canEStop, h]
  exact ⟨h1, by simp [toggleButtonClick, h1], h2, by simp [eStopButtonClick, h2]⟩

theorem requesting_blocks_invocation_witness :
    canToggleSrvButton true ⟨"/set_bool", "/status.data", false⟩ (some .activated)
        (some ⟨.requesting, none⟩) = false ∧
    toggleButtonClick true ⟨"/set_bool", "/status.data", false⟩ (some .activated)
        (.resolves ⟨true, "ok"⟩) (some ⟨.requesting, none⟩) =
      ⟨[], some ⟨.requesting, none⟩⟩ ∧
    canEStop true ⟨"/trigger", "/reset", "/status.data"⟩ (some .go)
        (some ⟨.requesting, none⟩) = false ∧
    eStopButtonClick true ⟨"/trigger", "/reset", "/status.data"⟩ (some .go)
        (.resolves ⟨true, "ok"⟩) (some ⟨.requesting, none⟩) =
      ⟨[], some ⟨.requesting, none⟩⟩ :=
  requesting_blocks_invocation true ⟨"/set_bool", "/status.data", false⟩
    ⟨"/trigger", "/reset", "/status.data"⟩ (some .activated) (some .go)
    (.resolves ⟨true, "ok"⟩) (some ⟨.requesting, none⟩) rfl

/-- C8: a call that resolves with a response whose success field is false
moves the request state to the transport-level success phase with the
response recorded, raises a failure notification whose details are the
response message verbatim, and dismissing the notification clears the
displayed request state (after which no notification is rendered). -/
theorem domain_failure_notification
    (cfg : ToggleConfig) (ecfg : EStopConfig) (a : ButtonState)
    (msg : String) (prev : Option SrvState)
    (hgo : ecfg.goServiceName.isEmpty = false) :
    toggleSrvButtonClicked true cfg (some a) (.resolves ⟨false, msg⟩) prev =
      ⟨[(cfg.serviceName, toggleRequestPayload a)],
        some ⟨.success, some ⟨false, msg⟩⟩⟩ ∧
    eStopClicked true ecfg (some .go) (.resolves ⟨false, msg⟩) prev =
      ⟨[(ecfg.goServiceName, .obj [])], some ⟨.success, some ⟨false, msg⟩⟩⟩ ∧
    notificationFor (some ⟨.success, some ⟨false, msg⟩⟩) =
      some ⟨"Request Failed", msg⟩ ∧
    notificationFor handleRequestCloseNotification = none := by
  refine ⟨rfl, ?_, rfl, rfl⟩
  simp [eStopClicked, hgo]

theorem domain_failure_notification_witness :
    toggleSrvButtonClicked true ⟨"/set_bool", "/status.data", false⟩
        (some .activated) (.resolves ⟨false, "reason"⟩) none =
      ⟨[("/set_bool", toggleRequestPayload .activated)],
        some ⟨.success, some ⟨false, "reason"⟩⟩⟩ ∧
    eStopClicked true ⟨"/trigger", "/reset", "/status.data"⟩
        (some .go) (.resolves ⟨false, "reason"⟩) none =
      ⟨[("/trigger", .obj [])], some ⟨.success, some ⟨false, "reason"⟩⟩⟩ ∧
    notificationFor (some ⟨.success, some ⟨false, "reason"⟩⟩) =
      some ⟨"Request Failed", "reason"⟩ ∧
    notificationFor handleRequestCloseNotification = none :=
  domain_failure_notification ⟨"/set_bool", "/status.data", false⟩
    ⟨"/trigger", "/reset", "/status.data"⟩ .activated "reason" none rfl
